import Mathlib

/-!
Verification development for the n8n-scanner workflow analyzer.

The analyzer core lives in `src/app/page.tsx` (`analyzeJson`,
`validateN8nWorkflow`, `checkNodeSecurity`) and
`src/components/report-generator.tsx` (`calculateSecureNodes`).  The code is
JavaScript operating on values produced by `JSON.parse`, so the embedding
models JSON values as an inductive type and reproduces the JavaScript
semantics the code relies on: truthiness, property access (absent property
is `undefined`, modelled as `none`; reading a property of `null` throws),
`String.prototype.includes`, `Array.isArray`, `typeof x === "object"`
(true for objects, arrays and `null`), `Object.values`/`Object.keys`, and
the case-insensitive regular expressions of the sensitive-data detector.
Throwing code is modelled with `Except String`; the constant
`description`/`remediation` strings attached to each finding are elided as
they carry no logic.  JSON numbers are modelled as integers; no analyzed
field or claim depends on fractional values.
-/

namespace N8n

/-- A JSON value as produced by `JSON.parse`. -/
inductive Json where
  | null : Json
  | bool : Bool → Json
  | num : Int → Json
  | str : String → Json
  | arr : List Json → Json
  | obj : List (String × Json) → Json

/-- JavaScript truthiness of a JSON value (objects and arrays are always
truthy; `0`, `""`, `false` and `null` are falsy). -/
def jsTruthy : Json → Bool
  | .null => false
  | .bool b => b
  | .num n => n != 0
  | .str s => s != ""
  | .arr _ => true
  | .obj _ => true

/-- Truthiness of a possibly-`undefined` value. -/
def truthyOpt : Option Json → Bool
  | none => false
  | some v => jsTruthy v

/-- Key lookup in an object field list. -/
def lookupField : List (String × Json) → String → Option Json
  | [], _ => none
  | (k, v) :: rest, key => if k == key then some v else lookupField rest key

/-- JavaScript property read `v.key`: objects yield the stored value or
`undefined`; every non-object yields `undefined`.  (Reading a property of
`null` throws; call sites model that explicitly.) -/
def getField (v : Json) (key : String) : Option Json :=
  match v with
  | .obj kvs => lookupField kvs key
  | _ => none

/-- `a || b` on a possibly-`undefined` left operand: the left value if
truthy, else the right value. -/
def jsOrVal (a : Option Json) (b : Json) : Json :=
  match a with
  | some v => if jsTruthy v then v else b
  | none => b

/-- Does the character list start with the given pattern? -/
def startsWith : List Char → List Char → Bool
  | [], _ => true
  | _ :: _, [] => false
  | a :: as, b :: bs => a == b && startsWith as bs

/-- Does the character list contain the pattern as a contiguous run? -/
def charsContain (needle : List Char) : List Char → Bool
  | [] => needle.isEmpty
  | c :: t => startsWith needle (c :: t) || charsContain needle t

/-- `hay.includes(needle)` on strings. -/
def strIncludes (hay needle : String) : Bool :=
  charsContain needle.data hay.data

/-- `v.includes(pat)` where `v` is the value of a `type` field: substring
test on strings, element test on arrays (only a string element can be
strictly equal to a string). -/
def jsIncludes : Json → String → Bool
  | .str s, pat => strIncludes s pat
  | .arr l, pat => l.any (fun e => match e with | .str t => t == pat | _ => false)
  | _, _ => false

/-- `Array.isArray` on a possibly-`undefined` value. -/
def isArrOpt : Option Json → Bool
  | some (.arr _) => true
  | _ => false

/-- `typeof v === "object"` (true for objects, arrays and `null`). -/
def isObjType : Json → Bool
  | .obj _ => true
  | .arr _ => true
  | .null => true
  | _ => false

/-- `typeof v === "object"` on a possibly-`undefined` value. -/
def isObjTypeOpt : Option Json → Bool
  | some v => isObjType v
  | none => false

mutual

/-- JavaScript string coercion of a JSON value, as used by template
literals: `String(null) = "null"`, arrays join with commas (`null` holes
render empty), plain objects render as `[object Object]`. -/
def jsToString : Json → String
  | .null => "null"
  | .bool b => cond b "true" "false"
  | .num n => toString n
  | .str s => s
  | .arr l => jsArrToString l
  | .obj _ => "[object Object]"

/-- Comma-joined rendering of an array body. -/
def jsArrToString : List Json → String
  | [] => ""
  | [.null] => ""
  | [v] => jsToString v
  | .null :: rest => "," ++ jsArrToString rest
  | v :: rest => jsToString v ++ "," ++ jsArrToString rest

end

mutual

/-- Structural equality of JSON values (the `===`/SameValueZero semantics
relevant here: primitives compare by value; the analyzer only ever
compares string and number identifiers). -/
def jsonEqB : Json → Json → Bool
  | .null, .null => true
  | .bool a, .bool b => a == b
  | .num a, .num b => a == b
  | .str a, .str b => a == b
  | .arr a, .arr b => jsonListEqB a b
  | .obj a, .obj b => jsonFieldsEqB a b
  | _, _ => false

/-- Elementwise equality of JSON arrays. -/
def jsonListEqB : List Json → List Json → Bool
  | [], [] => true
  | a :: as, b :: bs => jsonEqB a b && jsonListEqB as bs
  | _, _ => false

/-- Fieldwise equality of JSON objects. -/
def jsonFieldsEqB : List (String × Json) → List (String × Json) → Bool
  | [], [] => true
  | (k1, v1) :: as, (k2, v2) :: bs => k1 == k2 && jsonEqB v1 v2 && jsonFieldsEqB as bs
  | _, _ => false

end

/-- `Object.values(v)`: field values of an object, elements of an array,
single-character strings for a string, empty for other primitives. -/
def objValues : Json → List Json
  | .obj kvs => kvs.map Prod.snd
  | .arr l => l
  | .str s => s.data.map (fun c => Json.str (String.mk [c]))
  | _ => []

/-- JavaScript whitespace characters recognised by `\s` and `Number`. -/
def isSpaceChar (c : Char) : Bool :=
  c == ' ' || c == '\t' || c == '\n' || c == '\r' || c == '\x0b' || c == '\x0c'

/-- `\w`: ASCII letters, digits and underscore. -/
def isWordChar (c : Char) : Bool :=
  c.isAlphanum || c == '_'

/-- Decimal digits of a numeral, or `none` on a non-digit. -/
def digitsToNat : Nat → List Char → Option Nat
  | acc, [] => some acc
  | acc, c :: t => if c.isDigit then digitsToNat (acc * 10 + (c.toNat - 48)) t else none

/-- `Number(s)` for the integral strings the analyzer can meet: trimmed
empty string is `0`, an optional sign followed by decimal digits parses,
anything else (including fractional text) is treated as not-a-number. -/
def jsStrToInt (s : String) : Option Int :=
  let t := ((s.data.dropWhile isSpaceChar).reverse.dropWhile isSpaceChar).reverse
  match t with
  | [] => some 0
  | '-' :: ds => match ds with
    | [] => none
    | _ => (digitsToNat 0 ds).map (fun n => -(n : Int))
  | '+' :: ds => match ds with
    | [] => none
    | _ => (digitsToNat 0 ds).map (fun n => (n : Int))
  | ds => (digitsToNat 0 ds).map (fun n => (n : Int))

/-- `v?.length`: string and array lengths are numbers; on a plain object it
is an ordinary property read; other values have no `length`. -/
def jsLengthOf : Option Json → Option Json
  | some (.str s) => some (.num s.length)
  | some (.arr l) => some (.num l.length)
  | some (.obj kvs) => lookupField kvs "length"
  | _ => none

/-- The comparison `v > 5` as evaluated by the analyzer on a tool count:
numbers compare directly, every other value goes through string coercion
and integral `Number` conversion (not-a-number compares false). -/
def jsGtFive : Json → Bool
  | .num n => 5 < n
  | .bool _ => false
  | .null => false
  | v => match jsStrToInt (jsToString v) with
    | some n => 5 < n
    | none => false

/-! ## Regular expressions of the sensitive-data detector

Each of the eight patterns of `checkNodeSecurity` is given as a matcher:
given the previous character (for the word boundary `\b`) and the suffix
starting at the current position, it returns the length of a match
starting here, if any.  `pattern.test(s)` is existence of a match at some
position.  Case-insensitive patterns compare lowercased ASCII. -/

/-- A positional regex matcher: previous character, current suffix,
optional match length. -/
def MatchFn : Type := Option Char → List Char → Option Nat

/-- Lowercased view of a character list (ASCII case folding, which covers
every pattern of the catalog). -/
def lowerList (l : List Char) : List Char := l.map Char.toLower

/-- Matcher for a case-insensitive literal pattern. -/
def plainAt (pat : String) : MatchFn := fun _ l =>
  if startsWith pat.data (lowerList l) then some pat.length else none

/-- Matcher for `a[_-]?b` (case-insensitive): the optional separator is
matched greedily, as the regex engine does. -/
def optSepAt (a b : String) : MatchFn := fun _ l =>
  let ll := lowerList l
  if startsWith a.data ll then
    match ll.drop a.length with
    | c :: rest =>
      if (c == '_' || c == '-') && startsWith b.data rest then
        some (a.length + 1 + b.length)
      else if startsWith b.data (ll.drop a.length) then
        some (a.length + b.length)
      else none
    | [] => none
  else none

/-- Matcher for `a.b` (case-insensitive) where `.` is any character other
than a line terminator. -/
def dotPatAt (a b : String) : MatchFn := fun _ l =>
  let ll := lowerList l
  if startsWith a.data ll then
    match ll.drop a.length with
    | c :: rest =>
      if c != '\n' && c != '\r' && startsWith b.data rest then
        some (a.length + 1 + b.length)
      else none
    | [] => none
  else none

/-- Matcher for an alternation `p|q` (first alternative preferred). -/
def altAt (p q : MatchFn) : MatchFn := fun prev l =>
  match p prev l with
  | some k => some k
  | none => q prev l

/-- Four decimal digits, returning the rest of the input. -/
def digits4 : List Char → Option (List Char)
  | a :: b :: c :: d :: rest =>
    if a.isDigit && b.isDigit && c.isDigit && d.isDigit then some rest else none
  | _ => none

/-- Optionally consume one `[-\s]` separator, returning how many
characters were consumed.  A separator can never start a digit group, so
consuming it greedily is equivalent to the engine with backtracking. -/
def sepSkip : List Char → Nat × List Char
  | [] => (0, [])
  | c :: rest => if c == '-' || isSpaceChar c then (1, rest) else (0, c :: rest)

/-- Length of a match of `\d{4}[-\s]?\d{4}[-\s]?\d{4}[-\s]?\d{4}\b`
starting at the head of the input (the leading boundary is checked by the
caller). -/
def card16Len (l : List Char) : Option Nat :=
  match digits4 l with
  | none => none
  | some r1 =>
    let (s1, r1b) := sepSkip r1
    match digits4 r1b with
    | none => none
    | some r2 =>
      let (s2, r2b) := sepSkip r2
      match digits4 r2b with
      | none => none
      | some r3 =>
        let (s3, r3b) := sepSkip r3
        match digits4 r3b with
        | none => none
        | some rest =>
          match rest with
          | [] => some (16 + s1 + s2 + s3)
          | c :: _ => if isWordChar c then none else some (16 + s1 + s2 + s3)

/-- Matcher for the 16-digit card-number regex, including the leading
word boundary. -/
def card16At : MatchFn := fun prev l =>
  if (match prev with | none => true | some p => !(isWordChar p)) then
    card16Len l
  else none

/-- Does the matcher succeed at some position of the input?  (This is
`RegExp.prototype.test`.) -/
def existsMatch (m : MatchFn) : Option Char → List Char → Bool
  | _, [] => false
  | prev, c :: t => (m prev (c :: t)).isSome || existsMatch m (some c) t

/-- `pattern.test(s)`. -/
def regexTest (m : MatchFn) (s : String) : Bool :=
  existsMatch m none s.data

/-- The eight matchers of the sensitive-data catalog, in source order:
`/api[_-]?key/i`, `/password/i`, `/secret/i`, `/token/i`,
`/private[_-]?key/i`, `/ssn|social.security/i`, `/credit.card|ccn/i`,
and the 16-digit card-number regex. -/
def mApiKey : MatchFn := optSepAt "api" "key"

def mPassword : MatchFn := plainAt "password"

def mSecret : MatchFn := plainAt "secret"

def mSecToken : MatchFn := plainAt "token"

def mPrivateKey : MatchFn := optSepAt "private" "key"

def mSsn : MatchFn := altAt (plainAt "ssn") (dotPatAt "social" "security")

def mCreditKw : MatchFn := altAt (dotPatAt "credit" "card") (plainAt "ccn")

def mCardNum : MatchFn := card16At

/-- One sensitive-data pattern: its `test` predicate and the display name
interpolated into the finding message. -/
structure SensPattern where
  test : String → Bool
  ptype : String

/-- The `sensitivePatterns` table of `checkNodeSecurity`, in source
order. -/
def sensitivePatterns : List SensPattern :=
  [ ⟨regexTest mApiKey, "API Key"⟩,
    ⟨regexTest mPassword, "Password"⟩,
    ⟨regexTest mSecret, "Secret"⟩,
    ⟨regexTest mSecToken, "Token"⟩,
    ⟨regexTest mPrivateKey, "Private Key"⟩,
    ⟨regexTest mSsn, "SSN"⟩,
    ⟨regexTest mCreditKw, "Credit Card"⟩,
    ⟨regexTest mCardNum, "Credit Card Number"⟩ ]

/-! ## Findings and reports -/

/-- Severity of a finding. -/
inductive Severity where
  | high : Severity
  | medium : Severity
  | low : Severity
deriving DecidableEq

/-- One security finding.  `nodeId` is the raw `node.id` value (absent
when the node has none) and `nodeName` the display value
`node.name || node.id || "Unknown"`; the constant per-detector
`description`/`remediation` strings are elided. -/
structure SecurityIssue where
  severity : Severity
  type : String
  message : String
  nodeId : Option Json
  nodeName : Json

/-- Build a finding. -/
def mkIssue (sev : Severity) (t m : String) (nid : Option Json) (nn : Json) : SecurityIssue :=
  ⟨sev, t, m, nid, nn⟩

/-- Summary block of a report (`workflowInfo`). -/
structure WorkflowInfo where
  name : Json
  nodes : Nat
  connections : Nat
  version : Option Json

/-- The aggregate report (`ValidationResult`). -/
structure ValidationResult where
  isValid : Bool
  isN8nWorkflow : Bool
  errors : List String
  warnings : List String
  info : List String
  securityIssues : List SecurityIssue
  workflowInfo : Option WorkflowInfo

/-! ## Message templates (verbatim from the source) -/

def errReadNull (p : String) : String :=
  "Cannot read properties of null (reading \x27" ++ p ++ "\x27)"

def errReadUndefined (p : String) : String :=
  "Cannot read properties of undefined (reading \x27" ++ p ++ "\x27)"

def errNotFunction (f : String) : String := f ++ " is not a function"

def msgPromptInjection : String :=
  "Dynamic prompt construction detected. User input directly inserted into prompts can lead to prompt injection attacks."

def msgInsecureOutput : String :=
  "AI model output used without validation. Unvalidated LLM outputs can contain malicious content or be used in downstream attacks."

def msgTrainingData : String :=
  "Training data source detected. Untrusted training data can compromise model integrity and introduce backdoors."

def msgModelDos : String :=
  "No resource limits configured for LLM requests. This can lead to resource exhaustion and service disruption."

def msgSensitive (t : String) : String :=
  "Potential " ++ t ++ " detected in node parameters. Sensitive data in prompts can be logged or exposed."

def msgPlugin : String :=
  "LLM tool/plugin usage detected. Insecure plugins can provide unauthorized access to sensitive functions."

def msgAgency (c : String) : String :=
  "Agent configured with " ++ c ++ " tools. Excessive permissions can lead to unintended actions and security breaches."

def msgOverreliance : String :=
  "No fallback or validation mechanisms detected. Overreliance on LLM outputs without verification can lead to critical failures."

def msgModelTheft : String :=
  "Custom model path/URL detected. Exposed model endpoints can lead to intellectual property theft."

def msgPlanning : String :=
  "AI agent planning capabilities detected. Insecure planning can lead to unintended or malicious action sequences."

def msgMemory : String :=
  "AI memory/buffer system detected. Compromised memory can persist malicious information across sessions."

def msgCredential (t : String) : String :=
  "Node references credential of type \x27" ++ t ++ "\x27. Ensure credentials are properly secured."

def msgCodeExec : String :=
  "Node can execute custom code. Malicious code execution can compromise the entire system."

def msgHttp (url : String) (plain : Bool) : String :=
  "Node makes HTTP requests to: " ++ url ++ ". " ++
    (if plain then "Unencrypted HTTP connections expose data in transit."
     else "External requests may leak sensitive data.")

def msgWebhook : String :=
  "Node exposes a webhook endpoint. Unsecured webhooks can be exploited by attackers."

def msgSocial : String :=
  "Node integrates with social media platforms. Compromised accounts can lead to reputation damage and data exposure."

def msgDatabase : String :=
  "Direct database access detected. Improper database queries can lead to SQL injection and data breaches."

def msgFileSystem : String :=
  "File system operations detected. Unrestricted file access can lead to data exposure and system compromise."

/-! ## The security rule engine (`checkNodeSecurity`) -/

/-- `node.name || node.id || "Unknown"`. -/
def nodeDisplayName (node : Json) : Json :=
  jsOrVal (getField node "name") (jsOrVal (getField node "id") (Json.str "Unknown"))

/-- `node.parameters?.key`. -/
def pfield (node : Json) (key : String) : Option Json :=
  match getField node "parameters" with
  | some p => getField p key
  | none => none

/-- `if (c) issues.push(x)` as a list fragment. -/
def guardIssue (c : Bool) (x : SecurityIssue) : List SecurityIssue :=
  if c then [x] else []

mutual

/-- The recursive sensitive-data scan over `node.parameters`: a string is
tested against every pattern of the catalog (one finding per matching
pattern), objects and arrays are traversed entrywise, other values are
ignored. -/
def checkForSensitiveData (nid : Option Json) (nn : Json) : Json → List SecurityIssue
  | .str s =>
    (sensitivePatterns.filter (fun p => p.test s)).map
      (fun p => mkIssue .high "LLM-06: Sensitive Information Disclosure" (msgSensitive p.ptype) nid nn)
  | .obj kvs => sensitiveScanFields nid nn kvs
  | .arr l => sensitiveScanList nid nn l
  | _ => []

/-- Entrywise scan of an object. -/
def sensitiveScanFields (nid : Option Json) (nn : Json) : List (String × Json) → List SecurityIssue
  | [] => []
  | (_, v) :: rest => checkForSensitiveData nid nn v ++ sensitiveScanFields nid nn rest

/-- Elementwise scan of an array. -/
def sensitiveScanList (nid : Option Json) (nn : Json) : List Json → List SecurityIssue
  | [] => []
  | v :: rest => checkForSensitiveData nid nn v ++ sensitiveScanList nid nn rest

end

/-- LLM-01 trigger: an LLM/chat type, a truthy prompt or message
parameter, and a string content containing the template marker. -/
def promptInjectionCond (node ty : Json) : Bool :=
  (jsIncludes ty "lmChat" || jsIncludes ty "openai" || jsIncludes ty "gemini" || jsIncludes ty "anthropic")
  && (truthyOpt (pfield node "prompt") || truthyOpt (pfield node "message"))
  && (match jsOrVal (pfield node "prompt") (jsOrVal (pfield node "message") (Json.str "")) with
      | Json.str s => strIncludes s "\x7b\x7b"
      | _ => false)

def promptInjectionIssues (node ty : Json) : List SecurityIssue :=
  guardIssue (promptInjectionCond node ty)
    (mkIssue .high "LLM-01: Prompt Injection" msgPromptInjection (getField node "id") (nodeDisplayName node))

def insecureOutputIssues (node ty : Json) : List SecurityIssue :=
  guardIssue (jsIncludes ty "lmChat" || jsIncludes ty "openai" || jsIncludes ty "gemini")
    (mkIssue .medium "LLM-02: Insecure Output Handling" msgInsecureOutput (getField node "id") (nodeDisplayName node))

def trainingDataIssues (node : Json) : List SecurityIssue :=
  guardIssue (truthyOpt (pfield node "trainingData") || truthyOpt (pfield node "dataset"))
    (mkIssue .high "LLM-03: Training Data Poisoning" msgTrainingData (getField node "id") (nodeDisplayName node))

def modelDosIssues (node ty : Json) : List SecurityIssue :=
  guardIssue ((jsIncludes ty "lmChat" || jsIncludes ty "openai")
      && !(truthyOpt (pfield node "maxTokens")) && !(truthyOpt (pfield node "timeout")))
    (mkIssue .medium "LLM-04: Model Denial of Service" msgModelDos (getField node "id") (nodeDisplayName node))

/-- LLM-06 entry point: the scan runs whenever `node.parameters` is
truthy. -/
def sensitiveIssues (node : Json) : List SecurityIssue :=
  match getField node "parameters" with
  | some p =>
    if jsTruthy p then checkForSensitiveData (getField node "id") (nodeDisplayName node) p else []
  | none => []

def pluginIssues (node ty : Json) : List SecurityIssue :=
  guardIssue (jsIncludes ty "tool" || jsIncludes ty "agent")
    (mkIssue .medium "LLM-07: Insecure Plugin Design" msgPlugin (getField node "id") (nodeDisplayName node))

/-- `node.parameters?.tools?.length || 0`. -/
def toolCountOf (tools : Option Json) : Json :=
  jsOrVal (jsLengthOf tools) (Json.num 0)

def agencyIssues (node ty : Json) : List SecurityIssue :=
  if jsIncludes ty "agent" || (truthyOpt (pfield node "tools") && isArrOpt (pfield node "tools")) then
    guardIssue (jsGtFive (toolCountOf (pfield node "tools")))
      (mkIssue .high "LLM-08: Excessive Agency" (msgAgency (jsToString (toolCountOf (pfield node "tools"))))
        (getField node "id") (nodeDisplayName node))
  else []

def overrelianceIssues (node ty : Json) : List SecurityIssue :=
  guardIssue (jsIncludes ty "lmChat"
      && !(truthyOpt (pfield node "fallback")) && !(truthyOpt (pfield node "validation")))
    (mkIssue .medium "LLM-09: Overreliance" msgOverreliance (getField node "id") (nodeDisplayName node))

def modelTheftIssues (node : Json) : List SecurityIssue :=
  guardIssue (truthyOpt (pfield node "modelPath") || truthyOpt (pfield node "modelUrl"))
    (mkIssue .medium "LLM-10: Model Theft" msgModelTheft (getField node "id") (nodeDisplayName node))

def planningIssues (node ty : Json) : List SecurityIssue :=
  guardIssue (jsIncludes ty "agent" || jsIncludes ty "planning")
    (mkIssue .medium "Agentic AI: Insecure Planning" msgPlanning (getField node "id") (nodeDisplayName node))

def memoryIssues (node ty : Json) : List SecurityIssue :=
  guardIssue (jsIncludes ty "memory" || jsIncludes ty "buffer")
    (mkIssue .medium "Agentic AI: Memory Poisoning" msgMemory (getField node "id") (nodeDisplayName node))

/-- `Object.keys(v)` paired with the corresponding property values, as
enumerated by the credential loop: object fields, array or string
indices, nothing for other primitives. -/
def credentialEntries : Json → List (String × Json)
  | .obj kvs => kvs
  | .arr l => (List.range l.length).zip l |>.map (fun (i, v) => (toString i, v))
  | .str s => (List.range s.data.length).zip s.data |>.map (fun (i, c) => (toString i, Json.str (String.mk [c])))
  | _ => []

/-- The credential loop: `node.credentials[credType].id` throws on a
`null` entry; a truthy `id` yields one low-severity finding per
credential type. -/
def credLoop (nid : Option Json) (nn : Json) : List (String × Json) → Except String (List SecurityIssue)
  | [] => .ok []
  | (k, v) :: rest =>
    match v with
    | .null => .error (errReadNull "id")
    | _ =>
      match credLoop nid nn rest with
      | .error e => .error e
      | .ok t =>
        .ok ((guardIssue (truthyOpt (getField v "id"))
              (mkIssue .low "Credential Reference" (msgCredential k) nid nn)) ++ t)

def credentialIssues (node : Json) : Except String (List SecurityIssue) :=
  match getField node "credentials" with
  | none => .ok []
  | some c =>
    if jsTruthy c then
      credLoop (getField node "id") (nodeDisplayName node) (credentialEntries c)
    else .ok []

/-- The fixed list of code-execution type identifiers, compared by strict
equality. -/
def codeExecutionNodes : List String :=
  ["n8n-nodes-base.code", "n8n-nodes-base.function", "n8n-nodes-base.functionItem"]

def codeExecIssues (node ty : Json) : List SecurityIssue :=
  match ty with
  | Json.str s =>
    guardIssue (codeExecutionNodes.contains s)
      (mkIssue .high "Code Execution Risk" msgCodeExec (getField node "id") (nodeDisplayName node))
  | _ => []

def httpRequestIssues (node ty : Json) : List SecurityIssue :=
  if (match ty with | Json.str s => s == "n8n-nodes-base.httpRequest" | _ => false)
      && truthyOpt (pfield node "url") then
    match pfield node "url" with
    | some (Json.str url) =>
      guardIssue (strIncludes url "http://" || strIncludes url "https://")
        (mkIssue (if strIncludes url "http://" then .high else .medium)
          "External HTTP Request" (msgHttp url (strIncludes url "http://"))
          (getField node "id") (nodeDisplayName node))
    | _ => []
  else []

def webhookIssues (node ty : Json) : List SecurityIssue :=
  if jsIncludes ty "trigger" || jsIncludes ty "webhook" || jsIncludes ty "form" then
    guardIssue (truthyOpt (getField node "webhookId") || jsIncludes ty "webhook")
      (mkIssue .medium "Webhook Exposure" msgWebhook (getField node "id") (nodeDisplayName node))
  else []

def socialIssues (node ty : Json) : List SecurityIssue :=
  guardIssue (jsIncludes ty "linkedIn" || jsIncludes ty "twitter" || jsIncludes ty "facebook")
    (mkIssue .medium "Social Media Integration Risk" msgSocial (getField node "id") (nodeDisplayName node))

def databaseIssues (node ty : Json) : List SecurityIssue :=
  guardIssue (jsIncludes ty "postgres" || jsIncludes ty "mysql" || jsIncludes ty "database")
    (mkIssue .high "Database Security Risk" msgDatabase (getField node "id") (nodeDisplayName node))

def fileSystemIssues (node ty : Json) : List SecurityIssue :=
  guardIssue (jsIncludes ty "file" || jsIncludes ty "fs")
    (mkIssue .medium "File System Access Risk" msgFileSystem (getField node "id") (nodeDisplayName node))

/-- All detectors after the annotation check, in source order.  Only the
credential loop can throw; the thrown error discards every finding, which
matches the shared-array-plus-exception behavior of the source. -/
def checkNodeSecurityRest (node ty : Json) : Except String (List SecurityIssue) :=
  match credentialIssues node with
  | .error e => .error e
  | .ok cred =>
    .ok (promptInjectionIssues node ty
      ++ insecureOutputIssues node ty
      ++ trainingDataIssues node
      ++ modelDosIssues node ty
      ++ sensitiveIssues node
      ++ pluginIssues node ty
      ++ agencyIssues node ty
      ++ overrelianceIssues node ty
      ++ modelTheftIssues node
      ++ planningIssues node ty
      ++ memoryIssues node ty
      ++ cred
      ++ codeExecIssues node ty
      ++ httpRequestIssues node ty
      ++ webhookIssues node ty
      ++ socialIssues node ty
      ++ databaseIssues node ty
      ++ fileSystemIssues node ty)

/-- `checkNodeSecurity(node)`: reading `node.name` throws on a `null`
node; `node.type.includes` throws unless `type` is a string or an array;
an annotation (sticky-note) type skips the whole catalog. -/
def checkNodeSecurity (node : Json) : Except String (List SecurityIssue) :=
  match node with
  | Json.null => .error (errReadNull "name")
  | _ =>
    match getField node "type" with
    | some (Json.str s) =>
      if strIncludes s "stickyNote" then .ok []
      else checkNodeSecurityRest node (Json.str s)
    | some (Json.arr l) =>
      if jsIncludes (Json.arr l) "stickyNote" then .ok []
      else checkNodeSecurityRest node (Json.arr l)
    | some _ => .error (errNotFunction "node.type.includes")
    | none => .error (errReadUndefined "includes")

/-! ## Structural validation (`validateN8nWorkflow`) -/

/-- Workflow-likeness test of the source:
`data && (data.nodes || data.connections || data.meta?.instanceId || data.name)`,
boolean-ized by the `if (!isN8nWorkflow)` guard. -/
def isN8nWorkflowB (data : Json) : Bool :=
  jsTruthy data
    && (truthyOpt (getField data "nodes")
      || truthyOpt (getField data "connections")
      || truthyOpt (match getField data "meta" with
          | some m => getField m "instanceId"
          | none => none)
      || truthyOpt (getField data "name"))

def errNotWorkflow : String := "This doesn\x27t appear to be an n8n workflow file"

def errNodesArray : String := "Missing or invalid \x27nodes\x27 array"

def errConnectionsObj : String := "Missing or invalid \x27connections\x27 object"

def errMissingId (i : Nat) : String :=
  "Node at index " ++ toString i ++ " is missing required \x27id\x27 field"

def errMissingType (d : String) : String :=
  "Node \x27" ++ d ++ "\x27 is missing required \x27type\x27 field"

def warnMissingTypeVersion (d : String) : String :=
  "Node \x27" ++ d ++ "\x27 is missing \x27typeVersion\x27 field"

def infoInstance (v : String) : String := "Workflow from instance: " ++ v

def infoTemplateCreds : String := "Template credentials setup completed"

def infoCounts (n c : Nat) : String :=
  "Workflow contains " ++ toString n ++ " nodes and " ++ toString c ++ " connections"

/-- The early-return report for a document that does not look like a
workflow. -/
def notWorkflowReport : ValidationResult :=
  { isValid := false, isN8nWorkflow := false, errors := [errNotWorkflow],
    warnings := [], info := [], securityIssues := [], workflowInfo := none }

/-- Display name interpolated into node messages:
`node.name || node.id || index`. -/
def displayName (node : Json) (index : Nat) : String :=
  jsToString (jsOrVal (getField node "name") (jsOrVal (getField node "id") (Json.num index)))

/-- Structural errors of one node (missing `id`, missing `type`). -/
def nodeStructErrors (node : Json) (index : Nat) : List String :=
  (if !(truthyOpt (getField node "id")) then [errMissingId index] else [])
    ++ (if !(truthyOpt (getField node "type")) then [errMissingType (displayName node index)] else [])

/-- Structural warnings of one node (missing `typeVersion`). -/
def nodeStructWarnings (node : Json) (index : Nat) : List String :=
  if !(truthyOpt (getField node "typeVersion")) then
    [warnMissingTypeVersion (displayName node index)]
  else []

/-- The `forEach` over `data.nodes`: accumulates structural errors,
warnings and security findings; reading `node.id` of a `null` element or
running the security check on a type-less node throws. -/
def nodesLoop : List Json → Nat → Except String (List String × List String × List SecurityIssue)
  | [], _ => .ok ([], [], [])
  | node :: rest, i =>
    match node with
    | Json.null => .error (errReadNull "id")
    | _ =>
      match checkNodeSecurity node with
      | .error e => .error e
      | .ok sec =>
        match nodesLoop rest (i + 1) with
        | .error e => .error e
        | .ok (es, ws, ss) =>
          .ok (nodeStructErrors node i ++ es, nodeStructWarnings node i ++ ws, sec ++ ss)

/-- The `data.meta` info messages. -/
def metaInfo (data : Json) : List String :=
  match getField data "meta" with
  | some m =>
    if jsTruthy m then
      (match getField m "instanceId" with
       | some v => if jsTruthy v then [infoInstance (jsToString v)] else []
       | none => [])
      ++ (if truthyOpt (getField m "templateCredsSetupCompleted") then [infoTemplateCreds] else [])
    else []
  | none => []

/-! ## Connection counter -/

/-- Innermost level: `outputConnections.length` for an array, else 0. -/
def connL4 : Json → Nat
  | .arr l => l.length
  | _ => 0

/-- Output-slot level: iterate an array of output slots, else 0. -/
def connL3 : Json → Nat
  | .arr outs => (outs.map connL4).sum
  | _ => 0

/-- Per-source level: `Object.values` of any truthy `typeof "object"`
value (so arrays are enumerated positionally, like objects). -/
def connL2 (nc : Json) : Nat :=
  if jsTruthy nc && isObjType nc then ((objValues nc).map connL3).sum else 0

/-- `connectionCount` of the source: 0 for an absent or falsy
`connections`, otherwise the nested traversal. -/
def countConnections : Option Json → Nat
  | none => 0
  | some c => if jsTruthy c then ((objValues c).map connL2).sum else 0

/-- `data.nodes.filter((node) => !node.type.includes("stickyNote"))`:
throws on a `null` element or a non-string, non-array `type`. -/
def stickyFilter : List Json → Except String (List Json)
  | [] => .ok []
  | node :: rest =>
    match node with
    | Json.null => .error (errReadNull "type")
    | _ =>
      match getField node "type" with
      | some (Json.str s) =>
        (stickyFilter rest).map (fun t => if strIncludes s "stickyNote" then t else node :: t)
      | some (Json.arr l) =>
        (stickyFilter rest).map (fun t => if jsIncludes (Json.arr l) "stickyNote" then t else node :: t)
      | some _ => .error (errNotFunction "node.type.includes")
      | none => .error (errReadUndefined "includes")

/-- `validateN8nWorkflow(data)`.  Mirrors the source statement by
statement; the unguarded `data.nodes.filter` near the end throws whenever
`nodes` is not an array, and the per-node loop throws on type-less
nodes — either exception aborts the whole validation. -/
def validateN8nWorkflow (data : Json) : Except String ValidationResult :=
  if !(isN8nWorkflowB data) then .ok notWorkflowReport
  else
    match (match getField data "nodes" with
           | some (Json.arr l) => nodesLoop l 0
           | _ => .ok ([], [], [])) with
    | .error e => .error e
    | .ok (nodeErrs, nodeWarns, secIssues) =>
      match (match getField data "nodes" with
             | some (Json.arr l) => stickyFilter l
             | some Json.null => .error (errReadNull "filter")
             | some _ => .error (errNotFunction "data.nodes.filter")
             | none => .error (errReadUndefined "filter")) with
      | .error e => .error e
      | .ok actualNodes =>
        let errors :=
          (if !(truthyOpt (getField data "nodes")) || !(isArrOpt (getField data "nodes")) then
            [errNodesArray] else [])
          ++ (if !(truthyOpt (getField data "connections"))
                || !(isObjTypeOpt (getField data "connections")) then
            [errConnectionsObj] else [])
          ++ nodeErrs
        let connCount := countConnections (getField data "connections")
        .ok { isValid := errors.isEmpty, isN8nWorkflow := true,
              errors := errors, warnings := nodeWarns,
              info := metaInfo data ++ [infoCounts actualNodes.length connCount],
              securityIssues := secIssues,
              workflowInfo := some
                { name := jsOrVal (getField data "name") (Json.str "Unnamed Workflow"),
                  nodes := actualNodes.length,
                  connections := connCount,
                  version := match getField data "meta" with
                    | some m => getField m "version"
                    | none => none } }

/-! ## Entry point (`analyzeJson`) -/

/-- Outcome of the surrounding input handling: blank input, a
`JSON.parse` syntax error carrying the engine message, or a parsed
value. -/
inductive ParseOutcome where
  | emptyInput : ParseOutcome
  | parseFail : String → ParseOutcome
  | parseOk : Json → ParseOutcome

/-- A report holding a single error and nothing else, as built by the
blank-input guard and the `catch` block. -/
def emptyReport (msg : String) : ValidationResult :=
  { isValid := false, isN8nWorkflow := false, errors := [msg],
    warnings := [], info := [], securityIssues := [], workflowInfo := none }

/-- `analyzeJson`: blank input and parse failures become single-error
reports; an exception thrown anywhere inside `validateN8nWorkflow` is
caught by the same `catch` block and also becomes a single-error report.
The function is total: every failure mode is data in the result. -/
def analyze : ParseOutcome → ValidationResult
  | .emptyInput => emptyReport "Please provide JSON input"
  | .parseFail m => emptyReport ("Invalid JSON format: " ++ m)
  | .parseOk j =>
    match validateN8nWorkflow j with
    | .ok r => r
    | .error m => emptyReport ("Invalid JSON format: " ++ m)

/-! ## Report generator (`calculateSecureNodes`) -/

/-- The truthy `nodeId` values of a findings list
(`issues.map(i => i.nodeId).filter(Boolean)`). -/
def truthyNodeIds (issues : List SecurityIssue) : List Json :=
  issues.filterMap (fun i =>
    match i.nodeId with
    | some v => if jsTruthy v then some v else none
    | none => none)

/-- Is `node.id` a member of the truthy-id set?  (`Set.has(node.id)`: a
missing id is `undefined`, which can never equal a truthy stored
value.) -/
def idAmong (ids : List Json) (node : Json) : Bool :=
  match getField node "id" with
  | some i => ids.any (fun v => jsonEqB v i)
  | none => false

/-- `calculateSecureNodes` of the report generator: non-annotation nodes
whose `id` is not in the set of truthy finding ids.  `result.securityIssues`
is always an array (hence truthy), so only the `nodes` guard is
modelled. -/
def calculateSecureNodes (workflowData : Json) (issues : List SecurityIssue) : Except String Nat :=
  match getField workflowData "nodes" with
  | none => .ok 0
  | some nodes =>
    if !(jsTruthy nodes) then .ok 0
    else match nodes with
      | Json.arr l =>
        (stickyFilter l).map (fun actual =>
          (actual.filter (fun node => !(idAmong (truthyNodeIds issues) node))).length)
      | Json.null => .error (errReadNull "filter")
      | _ => .error (errNotFunction "workflowData.nodes.filter")

/-! ## Specification-side definitions

These follow the wording of the specification sentences under test and
are compared against the source-derived definitions above. -/

/-- Key presence in an object. -/
def hasKey (kvs : List (String × Json)) (k : String) : Bool :=
  (lookupField kvs k).isSome

/-- Spec wording of workflow-likeness: a non-null object exposing at
least one of a `nodes` attribute, a `connections` attribute, a nested
instance identifier under `meta`, or a `name` attribute (presence of the
attribute). -/
def looksLikeWorkflowSpec : Json → Bool
  | Json.obj kvs =>
    hasKey kvs "nodes" || hasKey kvs "connections"
      || (match lookupField kvs "meta" with
          | some (Json.obj mkvs) => hasKey mkvs "instanceId"
          | _ => false)
      || hasKey kvs "name"
  | _ => false

/-- Amended wording of workflow-likeness: an object carrying at least one
of the four attributes with a truthy value (`null`, `false`, `0` and the
empty string do not count; for `meta` the nested `instanceId` must itself
be truthy). -/
def workflowLikeTruthy : Json → Bool
  | Json.obj kvs =>
    truthyOpt (lookupField kvs "nodes") || truthyOpt (lookupField kvs "connections")
      || (match lookupField kvs "meta" with
          | some m => truthyOpt (getField m "instanceId")
          | none => false)
      || truthyOpt (lookupField kvs "name")
  | _ => false

/-- Spec wording of the innermost connection level: the length of an edge
array, 0 otherwise. -/
def connSpecL4 : Json → Nat
  | .arr edges => edges.length
  | _ => 0

/-- Spec wording of the output-slot level: an ordered sequence of edge
arrays, 0 otherwise. -/
def connSpecL3 : Json → Nat
  | .arr outs => (outs.map connSpecL4).sum
  | _ => 0

/-- Spec wording of the category level: a mapping from category to output
slots; a non-mapping contributes 0. -/
def connSpecL2 : Json → Nat
  | .obj kvs => (kvs.map (fun kv => connSpecL3 kv.2)).sum
  | _ => 0

/-- Spec wording of the connection count: a mapping from source node to
category mappings; a non-mapping contributes 0. -/
def connSpecSum : Json → Nat
  | .obj kvs => (kvs.map (fun kv => connSpecL2 kv.2)).sum
  | _ => 0

/-- Inner well-formedness of an output-slot sequence: an array of edge
arrays. -/
def wfL3 : Json → Bool
  | .arr outs => outs.all (fun o => match o with | .arr _ => true | _ => false)
  | _ => false

/-- Well-formedness of one category mapping. -/
def wfL2 : Json → Bool
  | .obj kvs => kvs.all (fun kv => wfL3 kv.2)
  | _ => false

/-- A well-formed connection map: mapping of mappings of arrays of
arrays. -/
def wellFormedConnB : Json → Bool
  | .obj kvs => kvs.all (fun kv => wfL2 kv.2)
  | _ => false

/-- Number of catalog patterns matching a string (one finding per pattern
per matching string). -/
def perStringMatchCount (s : String) : Nat :=
  (sensitivePatterns.filter (fun p => p.test s)).length

mutual

/-- Amended spec count for the sensitive-data detector: over every string
value of the parameter tree, one finding per matching pattern. -/
def sensMatchCount : Json → Nat
  | .str s => perStringMatchCount s
  | .obj kvs => sensMatchCountFields kvs
  | .arr l => sensMatchCountList l
  | _ => 0

def sensMatchCountFields : List (String × Json) → Nat
  | [] => 0
  | (_, v) :: rest => sensMatchCount v + sensMatchCountFields rest

def sensMatchCountList : List Json → Nat
  | [] => 0
  | v :: rest => sensMatchCount v + sensMatchCountList rest

end

/-- Non-overlapping occurrence scan of a matcher over the input, with a
fuel argument bounded by the input length (each step consumes at least
one character, so the fuel is never exhausted early). -/
def occFuel (m : MatchFn) : Nat → Option Char → List Char → Nat
  | 0, _, _ => 0
  | _ + 1, _, [] => 0
  | fuel + 1, prev, c :: t =>
    match m prev (c :: t) with
    | some k =>
      let step := max k 1
      1 + occFuel m fuel ((c :: t).take step).getLast? ((c :: t).drop step)
    | none => occFuel m fuel (some c) t

/-- Number of non-overlapping occurrences of a matcher in a string (the
count `s.match(pattern-with-g).length` would report). -/
def occurrencesOf (m : MatchFn) (s : String) : Nat :=
  occFuel m s.data.length none s.data

/-- The eight matchers in catalog order, for the per-occurrence
reading. -/
def claimMatchers : List MatchFn :=
  [mApiKey, mPassword, mSecret, mSecToken, mPrivateKey, mSsn, mCreditKw, mCardNum]

/-- Claim wording for one string: one finding per pattern per occurrence
of a match. -/
def perStringOccurrenceCount (s : String) : Nat :=
  (claimMatchers.map (fun m => occurrencesOf m s)).sum

mutual

/-- Claim wording of the sensitive-data detector count: over every string
value of the parameter tree, one finding per pattern per occurrence. -/
def sensOccCount : Json → Nat
  | .str s => perStringOccurrenceCount s
  | .obj kvs => sensOccCountFields kvs
  | .arr l => sensOccCountList l
  | _ => 0

def sensOccCountFields : List (String × Json) → Nat
  | [] => 0
  | (_, v) :: rest => sensOccCount v + sensOccCountFields rest

def sensOccCountList : List Json → Nat
  | [] => 0
  | v :: rest => sensOccCount v + sensOccCountList rest

end

/-- Is a node an annotation (sticky-note) node? -/
def isStickyNode (node : Json) : Bool :=
  match getField node "type" with
  | some t => jsIncludes t "stickyNote"
  | none => false

/-- Claim wording of `countSecureNodes`: the number of non-annotation
nodes with zero findings associated with them, a finding being associated
with the node whose `id` its `nodeId` carries (both absent also
agreeing). -/
def secureNodesClaim (workflowData : Json) (issues : List SecurityIssue) : Nat :=
  match getField workflowData "nodes" with
  | some (Json.arr l) =>
    (l.filter (fun node =>
      !(isStickyNode node)
        && !(issues.any (fun i =>
            match i.nodeId, getField node "id" with
            | some a, some b => jsonEqB a b
            | none, none => true
            | _, _ => false)))).length
  | _ => 0

/-- Amended wording of `countSecureNodes`: the number of non-annotation
nodes whose `id` is not among the truthy `nodeId` values of the findings
(findings without a truthy `nodeId` associate with no node). -/
def secureNodesAmended (workflowData : Json) (issues : List SecurityIssue) : Nat :=
  match getField workflowData "nodes" with
  | some (Json.arr l) =>
    (l.filter (fun node => !(idAmong (truthyNodeIds issues) node) && !(isStickyNode node))).length
  | _ => 0

/-! ## Concrete documents used by the claims -/

/-- The demo node of the C1 scenario. -/
def demoNode : Json := Json.obj
  [("id", Json.str "1"),
   ("type", Json.str "n8n-nodes-base.httpRequest"),
   ("parameters", Json.obj [("url", Json.str "http://example.com")])]

/-- The parsed C1 scenario document. -/
def demoDoc : Json := Json.obj
  [("name", Json.str "Demo"),
   ("nodes", Json.arr [demoNode]),
   ("connections", Json.obj [])]

/-- A workflow-like document without a `nodes` array (C4). -/
def noNodesDoc : Json := Json.obj [("connections", Json.obj [])]

/-- A workflow-like document whose sole node lacks `type` (C5). -/
def noTypeDoc : Json := Json.obj
  [("name", Json.str "W"),
   ("nodes", Json.arr [Json.obj [("id", Json.str "1")]]),
   ("connections", Json.obj [])]

/-- A parameters object with two occurrences of a password keyword in one
string (C6). -/
def doublePasswordParams : Json := Json.obj [("p", Json.str "password password")]

/-- A connection map with an array at the source-node mapping level
(C8). -/
def arrayBranchConnections : Json := Json.obj
  [("A", Json.arr [Json.arr [Json.arr [Json.null, Json.null]]])]

/-- A well-formed connection map with three edges (C8 witness). -/
def wfConnections : Json := Json.obj
  [("A", Json.obj [("main", Json.arr
      [Json.arr [Json.null, Json.null], Json.arr [Json.null]])])]

/-- A code node without an `id` (C9). -/
def idlessCodeNode : Json := Json.obj [("type", Json.str "n8n-nodes-base.code")]

/-- A document holding only the id-less code node (C9). -/
def idlessCodeDoc : Json := Json.obj [("nodes", Json.arr [idlessCodeNode])]

/-- The finding the engine produces for the id-less code node: its
`nodeId` is absent (C9). -/
def idlessCodeFinding : SecurityIssue :=
  mkIssue .high "Code Execution Risk" msgCodeExec none (Json.str "Unknown")

/-- The single-node document used by C10: a name-less, id-less,
version-less annotation node placed in an otherwise healthy workflow. -/
def annotationDoc (node : Json) : Json := Json.obj
  [("name", Json.str "W"),
   ("nodes", Json.arr [node]),
   ("connections", Json.obj [])]

/-- A bare sticky-note node (C10 witness). -/
def bareStickyNode : Json := Json.obj [("type", Json.str "n8n-nodes-base.stickyNote")]

/-! ## Helper lemmas -/

/-- `a || b` with a falsy left operand yields the right operand. -/
theorem jsOrVal_falsy {a : Option Json} (b : Json) (h : truthyOpt a = false) :
    jsOrVal a b = b := by
  cases a with
  | none => rfl
  | some v => simp [truthyOpt] at h; simp [jsOrVal, h]

/-- An element of a conditional singleton is that singleton. -/
theorem mem_guardIssue {c : Bool} {x i : SecurityIssue} (h : i ∈ guardIssue c x) : i = x := by
  unfold guardIssue at h
  split at h
  · simpa using h
  · simp at h

/-! ## C1 -/

/-- C1: on the parsed demo document
`{"name":"Demo","nodes":[...httpRequest, url http://example.com...],"connections":{}}`
the analyzer returns a report with `isValid = true`, a summary of 1 node
and 0 connections, and exactly one finding, of category
"External HTTP Request" at high severity (plaintext scheme); no other
detector fires. -/
theorem claim_C1 :
    analyze (ParseOutcome.parseOk demoDoc) =
      { isValid := true, isN8nWorkflow := true, errors := [],
        warnings := [warnMissingTypeVersion "1"],
        info := [infoCounts 1 0],
        securityIssues := [mkIssue .high "External HTTP Request"
          (msgHttp "http://example.com" true) (some (Json.str "1")) (Json.str "1")],
        workflowInfo := some ⟨Json.str "Demo", 1, 0, none⟩ } := rfl

/-! ## C2 -/

/-- C2: `analyze` is a total function into reports; a parse failure
yields a report whose single error carries the parse message (with empty
warnings and findings), and an exception thrown while validating a parsed
document is likewise returned as error data rather than propagated. -/
theorem claim_C2 (o : ParseOutcome) :
    (o = ParseOutcome.emptyInput → analyze o = emptyReport "Please provide JSON input")
  ∧ (∀ m, o = ParseOutcome.parseFail m →
      (analyze o).errors = ["Invalid JSON format: " ++ m]
        ∧ (analyze o).warnings = [] ∧ (analyze o).securityIssues = []
        ∧ (analyze o).isValid = false)
  ∧ (∀ j m, o = ParseOutcome.parseOk j → validateN8nWorkflow j = Except.error m →
      (analyze o).errors = ["Invalid JSON format: " ++ m]
        ∧ (analyze o).warnings = [] ∧ (analyze o).securityIssues = []
        ∧ (analyze o).isValid = false) := by
  refine ⟨fun h => by subst h; rfl, fun m h => by subst h; simp [analyze, emptyReport], ?_⟩
  intro j m h hv
  subst h
  simp [analyze, hv, emptyReport]

/-- C2 witness: a concrete parse failure and a concrete document on which
the validator throws (its `nodes` is absent while the unguarded
`data.nodes.filter` runs) both come back as single-error reports. -/
theorem claim_C2_witness :
    (analyze (ParseOutcome.parseFail "Unexpected end of JSON input")).errors
        = ["Invalid JSON format: Unexpected end of JSON input"]
  ∧ (analyze (ParseOutcome.parseOk (Json.obj [("name", Json.str "W")]))).errors
        = ["Invalid JSON format: " ++ errReadUndefined "filter"] :=
  ⟨((claim_C2 _).2.1 _ rfl).1,
   ((claim_C2 (ParseOutcome.parseOk (Json.obj [("name", Json.str "W")]))).2.2
      (Json.obj [("name", Json.str "W")]) (errReadUndefined "filter") rfl rfl).1⟩

/-! ## C3 -/

/-- C3 counterexample: `{"name":""}` exposes a `name` attribute, so the
claimed presence-based classification calls it workflow-like, but the
code tests truthiness and rejects it with the not-a-workflow report. -/
theorem claim_C3_cex :
    looksLikeWorkflowSpec (Json.obj [("name", Json.str "")]) = true
  ∧ isN8nWorkflowB (Json.obj [("name", Json.str "")]) = false
  ∧ validateN8nWorkflow (Json.obj [("name", Json.str "")]) = Except.ok notWorkflowReport :=
  ⟨rfl, rfl, rfl⟩

/-- C3 (amended): a parsed value is classified workflow-like iff it is an
object carrying at least one of `nodes`, `connections`, `meta.instanceId`
or `name` with a truthy value; when it is not, the report has
`looksLikeWorkflow = false`, exactly one descriptive error, no summary,
and no further checks run. -/
theorem claim_C3 (d : Json) :
    isN8nWorkflowB d = workflowLikeTruthy d
  ∧ (isN8nWorkflowB d = false → validateN8nWorkflow d = Except.ok notWorkflowReport) := by
  constructor
  · cases d with
    | obj kvs =>
      simp [isN8nWorkflowB, workflowLikeTruthy, jsTruthy, getField]
      cases h : lookupField kvs "meta" <;> simp [h, truthyOpt]
    | _ => simp [isN8nWorkflowB, workflowLikeTruthy, jsTruthy, getField, truthyOpt]
  · intro h
    simp [validateN8nWorkflow, h]

/-- C3 witness: a truthy non-object (the number 5) is not workflow-like
under either reading and gets the single-error report. -/
theorem claim_C3_witness :
    isN8nWorkflowB (Json.num 5) = workflowLikeTruthy (Json.num 5)
  ∧ validateN8nWorkflow (Json.num 5) = Except.ok notWorkflowReport :=
  ⟨(claim_C3 (Json.num 5)).1, (claim_C3 (Json.num 5)).2 rfl⟩

/-! ## C4 -/

/-- C4: the claim says a workflow-like document without a `nodes` array
gets the error "Missing or invalid \x27nodes\x27 array" in the returned
report (possibly together with the connections error).  The code pushes
that error but then runs the unguarded `data.nodes.filter`, which throws,
so the entry point returns a single catch-block error instead: on
`{"connections":{}}` the validator throws and neither structural message
survives. -/
theorem claim_C4 :
    validateN8nWorkflow noNodesDoc = Except.error (errReadUndefined "filter")
  ∧ (analyze (ParseOutcome.parseOk noNodesDoc)).errors
      = ["Invalid JSON format: " ++ errReadUndefined "filter"]
  ∧ errNodesArray ∉ (analyze (ParseOutcome.parseOk noNodesDoc)).errors := by
  refine ⟨rfl, rfl, ?_⟩
  decide

/-! ## C5 -/

/-- C5: the claim says every accumulated structural message appears in
the returned report.  A node with an `id` but no `type` gets its
missing-type error pushed, but `checkNodeSecurity` then dereferences
`node.type.includes` and throws, so the analysis is replaced by a single
catch-block error and the message is lost. -/
theorem claim_C5 :
    validateN8nWorkflow noTypeDoc = Except.error (errReadUndefined "includes")
  ∧ (analyze (ParseOutcome.parseOk noTypeDoc)).errors
      = ["Invalid JSON format: " ++ errReadUndefined "includes"]
  ∧ errMissingType "1" ∉ (analyze (ParseOutcome.parseOk noTypeDoc)).errors := by
  refine ⟨rfl, rfl, ?_⟩
  decide

/-! ## C6 -/

mutual

/-- The scan produces exactly one finding per matching pattern per string
value of the tree. -/
theorem sensScanLen (nid : Option Json) (nn : Json) :
    (j : Json) → (checkForSensitiveData nid nn j).length = sensMatchCount j
  | .null => rfl
  | .bool _ => rfl
  | .num _ => rfl
  | .str s => by
    simp [checkForSensitiveData, sensMatchCount, perStringMatchCount]
  | .obj kvs => by
    simpa [checkForSensitiveData, sensMatchCount] using sensFieldsLen nid nn kvs
  | .arr l => by
    simpa [checkForSensitiveData, sensMatchCount] using sensListLen nid nn l

theorem sensFieldsLen (nid : Option Json) (nn : Json) :
    (kvs : List (String × Json)) → (sensitiveScanFields nid nn kvs).length = sensMatchCountFields kvs
  | [] => rfl
  | (_, v) :: rest => by
    simp [sensitiveScanFields, sensMatchCountFields, sensScanLen nid nn v,
      sensFieldsLen nid nn rest]

theorem sensListLen (nid : Option Json) (nn : Json) :
    (l : List Json) → (sensitiveScanList nid nn l).length = sensMatchCountList l
  | [] => rfl
  | v :: rest => by
    simp [sensitiveScanList, sensMatchCountList, sensScanLen nid nn v,
      sensListLen nid nn rest]

end

/-- C6 counterexample: the string "password password" holds two
occurrences of the password pattern, so the claimed per-occurrence
emission would produce two findings, but `pattern.test` fires once per
pattern per string and the scan produces exactly one. -/
theorem claim_C6_cex :
    (checkForSensitiveData none (Json.str "n") doublePasswordParams).length = 1
  ∧ sensOccCount doublePasswordParams = 2 := ⟨rfl, rfl⟩

/-- C6 (amended): the sensitive-information scan walks every string value
of the parameter tree and emits one high-severity finding per matching
pattern per string — independent of how many occurrences of the pattern
the string holds. -/
theorem claim_C6 (nid : Option Json) (nn : Json) (j : Json) :
    (checkForSensitiveData nid nn j).length = sensMatchCount j :=
  sensScanLen nid nn j

/-! ## C7 -/

theorem promptInjection_type (node ty : Json) :
    ∀ i ∈ promptInjectionIssues node ty, i.type = "LLM-01: Prompt Injection" := by
  intro i h
  rw [mem_guardIssue h]
  rfl

theorem insecureOutput_type (node ty : Json) :
    ∀ i ∈ insecureOutputIssues node ty, i.type = "LLM-02: Insecure Output Handling" := by
  intro i h
  rw [mem_guardIssue h]
  rfl

theorem trainingData_type (node : Json) :
    ∀ i ∈ trainingDataIssues node, i.type = "LLM-03: Training Data Poisoning" := by
  intro i h
  rw [mem_guardIssue h]
  rfl

theorem modelDos_type (node ty : Json) :
    ∀ i ∈ modelDosIssues node ty, i.type = "LLM-04: Model Denial of Service" := by
  intro i h
  rw [mem_guardIssue h]
  rfl

mutual

theorem sensScan_type (nid : Option Json) (nn : Json) :
    (j : Json) → ∀ i ∈ checkForSensitiveData nid nn j,
      i.type = "LLM-06: Sensitive Information Disclosure"
  | .null => by intro i h; simp [checkForSensitiveData] at h
  | .bool _ => by intro i h; simp [checkForSensitiveData] at h
  | .num _ => by intro i h; simp [checkForSensitiveData] at h
  | .str s => by
    intro i h
    simp [checkForSensitiveData] at h
    obtain ⟨p, _, rfl⟩ := h
    rfl
  | .obj kvs => by
    intro i h
    exact sensFields_type nid nn kvs i (by simpa [checkForSensitiveData] using h)
  | .arr l => by
    intro i h
    exact sensList_type nid nn l i (by simpa [checkForSensitiveData] using h)

theorem sensFields_type (nid : Option Json) (nn : Json) :
    (kvs : List (String × Json)) → ∀ i ∈ sensitiveScanFields nid nn kvs,
      i.type = "LLM-06: Sensitive Information Disclosure"
  | [] => by intro i h; simp [sensitiveScanFields] at h
  | (_, v) :: rest => by
    intro i h
    rw [sensitiveScanFields] at h
    rcases List.mem_append.mp h with h1 | h2
    · exact sensScan_type nid nn v i h1
    · exact sensFields_type nid nn rest i h2

theorem sensList_type (nid : Option Json) (nn : Json) :
    (l : List Json) → ∀ i ∈ sensitiveScanList nid nn l,
      i.type = "LLM-06: Sensitive Information Disclosure"
  | [] => by intro i h; simp [sensitiveScanList] at h
  | v :: rest => by
    intro i h
    rw [sensitiveScanList] at h
    rcases List.mem_append.mp h with h1 | h2
    · exact sensScan_type nid nn v i h1
    · exact sensList_type nid nn rest i h2

end

theorem sensitiveIssues_type (node : Json) :
    ∀ i ∈ sensitiveIssues node, i.type = "LLM-06: Sensitive Information Disclosure" := by
  intro i h
  unfold sensitiveIssues at h
  split at h
  · split at h
    · exact sensScan_type _ _ _ i h
    · simp at h
  · simp at h

theorem plugin_type (node ty : Json) :
    ∀ i ∈ pluginIssues node ty, i.type = "LLM-07: Insecure Plugin Design" := by
  intro i h
  rw [mem_guardIssue h]
  rfl

theorem agency_type (node ty : Json) :
    ∀ i ∈ agencyIssues node ty, i.type = "LLM-08: Excessive Agency" := by
  intro i h
  unfold agencyIssues at h
  split at h
  · rw [mem_guardIssue h]; rfl
  · simp at h

theorem overreliance_type (node ty : Json) :
    ∀ i ∈ overrelianceIssues node ty, i.type = "LLM-09: Overreliance" := by
  intro i h
  rw [mem_guardIssue h]
  rfl

theorem modelTheft_type (node : Json) :
    ∀ i ∈ modelTheftIssues node, i.type = "LLM-10: Model Theft" := by
  intro i h
  rw [mem_guardIssue h]
  rfl

theorem planning_type (node ty : Json) :
    ∀ i ∈ planningIssues node ty, i.type = "Agentic AI: Insecure Planning" := by
  intro i h
  rw [mem_guardIssue h]
  rfl

theorem memory_type (node ty : Json) :
    ∀ i ∈ memoryIssues node ty, i.type = "Agentic AI: Memory Poisoning" := by
  intro i h
  rw [mem_guardIssue h]
  rfl

theorem credLoop_type (nid : Option Json) (nn : Json) :
    (entries : List (String × Json)) → (res : List SecurityIssue) →
    credLoop nid nn entries = Except.ok res → ∀ i ∈ res, i.type = "Credential Reference"
  | [], res, h => by
    intro i hi
    simp only [credLoop, Except.ok.injEq] at h
    subst h
    simp at hi
  | (k, v) :: rest, res, h => by
    intro i hi
    unfold credLoop at h
    split at h
    · simp at h
    · split at h
      · simp at h
      · rename_i t heq
        simp only [Except.ok.injEq] at h
        rw [← h] at hi
        rcases List.mem_append.mp hi with h1 | h2
        · rw [mem_guardIssue h1]; rfl
        · exact credLoop_type nid nn rest t heq i h2

theorem credentialIssues_type (node : Json) (res : List SecurityIssue)
    (h : credentialIssues node = Except.ok res) :
    ∀ i ∈ res, i.type = "Credential Reference" := by
  unfold credentialIssues at h
  split at h
  · intro i hi; simp only [Except.ok.injEq] at h; subst h; simp at hi
  · split at h
    · exact credLoop_type _ _ _ _ h
    · intro i hi; simp only [Except.ok.injEq] at h; subst h; simp at hi

theorem httpRequest_type (node ty : Json) :
    ∀ i ∈ httpRequestIssues node ty, i.type = "External HTTP Request" := by
  intro i h
  unfold httpRequestIssues at h
  split at h
  · split at h
    · rw [mem_guardIssue h]; rfl
    · simp at h
  · simp at h

theorem webhook_type (node ty : Json) :
    ∀ i ∈ webhookIssues node ty, i.type = "Webhook Exposure" := by
  intro i h
  unfold webhookIssues at h
  split at h
  · rw [mem_guardIssue h]; rfl
  · simp at h

theorem social_type (node ty : Json) :
    ∀ i ∈ socialIssues node ty, i.type = "Social Media Integration Risk" := by
  intro i h
  rw [mem_guardIssue h]
  rfl

theorem database_type (node ty : Json) :
    ∀ i ∈ databaseIssues node ty, i.type = "Database Security Risk" := by
  intro i h
  rw [mem_guardIssue h]
  rfl

theorem fileSystem_type (node ty : Json) :
    ∀ i ∈ fileSystemIssues node ty, i.type = "File System Access Risk" := by
  intro i h
  rw [mem_guardIssue h]
  rfl

/-- A sticky-note type is never one of the code-execution
identifiers. -/
theorem codeExec_not_sticky {s : String} (hc : codeExecutionNodes.contains s = true) :
    strIncludes s "stickyNote" = false := by
  have hm : s ∈ codeExecutionNodes := by simpa using hc
  simp [codeExecutionNodes] at hm
  rcases hm with rfl | rfl | rfl <;> decide

/-- C7: the Code Execution Risk detector compares `node.type` by strict
equality against the fixed identifier list: whenever the engine completes
on a node whose string type is exactly one of the three identifiers, the
findings contain a high-severity "Code Execution Risk" entry; whenever
the type is any other string — in particular one that merely contains an
identifier as a substring — no finding of that category is produced. -/
theorem claim_C7 (node : Json) (s : String) (issues : List SecurityIssue)
    (hty : getField node "type" = some (Json.str s))
    (hok : checkNodeSecurity node = Except.ok issues) :
    (codeExecutionNodes.contains s = true →
      issues.any (fun i => i.type == "Code Execution Risk" && i.severity == Severity.high) = true)
  ∧ (codeExecutionNodes.contains s = false →
      issues.any (fun i => i.type == "Code Execution Risk") = false) := by
  cases node with
  | null => simp [getField] at hty
  | bool b => simp [getField] at hty
  | num n => simp [getField] at hty
  | str t => simp [getField] at hty
  | arr l => simp [getField] at hty
  | obj kvs =>
    unfold checkNodeSecurity at hok
    simp only [hty] at hok
    by_cases hst : strIncludes s "stickyNote" = true
    · rw [if_pos hst] at hok
      simp only [Except.ok.injEq] at hok
      subst hok
      constructor
      · intro hc
        rw [codeExec_not_sticky hc] at hst
        simp at hst
      · intro _
        rfl
    · rw [if_neg hst] at hok
      unfold checkNodeSecurityRest at hok
      split at hok
      · simp at hok
      · rename_i cred heq
        simp only [Except.ok.injEq] at hok
        subst hok
        constructor
        · intro hc
          rw [List.any_eq_true]
          refine ⟨mkIssue .high "Code Execution Risk" msgCodeExec
            (getField (Json.obj kvs) "id") (nodeDisplayName (Json.obj kvs)), ?_, rfl⟩
          have hmem : mkIssue .high "Code Execution Risk" msgCodeExec
              (getField (Json.obj kvs) "id") (nodeDisplayName (Json.obj kvs))
              ∈ codeExecIssues (Json.obj kvs) (Json.str s) := by
            simp only [codeExecIssues]
            rw [hc]
            simp [guardIssue]
          simp only [List.mem_append]
          tauto
        · intro hc
          rw [List.any_eq_false]
          intro i hi
          simp only [List.mem_append] at hi
          rcases hi with ((((((((((((((((h | h) | h) | h) | h) | h) | h) | h) | h) | h) | h) | h) | h) | h) | h) | h) | h) | h
          · rw [promptInjection_type _ _ i h]; decide
          · rw [insecureOutput_type _ _ i h]; decide
          · rw [trainingData_type _ i h]; decide
          · rw [modelDos_type _ _ i h]; decide
          · rw [sensitiveIssues_type _ i h]; decide
          · rw [plugin_type _ _ i h]; decide
          · rw [agency_type _ _ i h]; decide
          · rw [overreliance_type _ _ i h]; decide
          · rw [modelTheft_type _ i h]; decide
          · rw [planning_type _ _ i h]; decide
          · rw [memory_type _ _ i h]; decide
          · rw [credentialIssues_type _ _ heq i h]; decide
          · have hm : ¬ s ∈ codeExecutionNodes := by simpa using hc
            simp [codeExecIssues, guardIssue, hm] at h
          · rw [httpRequest_type _ _ i h]; decide
          · rw [webhook_type _ _ i h]; decide
          · rw [social_type _ _ i h]; decide
          · rw [database_type _ _ i h]; decide
          · rw [fileSystem_type _ _ i h]; decide

/-- C7 witness: the engine on a bare `n8n-nodes-base.code` node yields
exactly the high-severity Code Execution Risk finding. -/
theorem claim_C7_witness :
    ([mkIssue .high "Code Execution Risk" msgCodeExec none (Json.str "Unknown")].any
      (fun i => i.type == "Code Execution Risk" && i.severity == Severity.high)) = true :=
  (claim_C7 idlessCodeNode "n8n-nodes-base.code"
    [mkIssue .high "Code Execution Risk" msgCodeExec none (Json.str "Unknown")]
    rfl rfl).1 rfl

/-! ## C8 -/

theorem connL4_eq : ∀ j, connL4 j = connSpecL4 j := by
  intro j
  cases j <;> rfl

theorem connL4_funeq : connL4 = connSpecL4 := funext connL4_eq

theorem connL3_eq : ∀ j, connL3 j = connSpecL3 j := by
  intro j
  cases j <;> simp [connL3, connSpecL3, connL4_funeq]

theorem connL3_funeq : connL3 = connSpecL3 := funext connL3_eq

/-- On every value except an array, the per-source traversal agrees with
the mapping-only reading (arrays are exactly where they part ways). -/
theorem connL2_spec (v : Json) (h : wfL2 v = true) : connL2 v = connSpecL2 v := by
  cases v with
  | obj kvs =>
    simp only [connL2, connSpecL2, jsTruthy, isObjType, Bool.and_self, if_true,
      objValues, List.map_map, connL3_funeq]
    rfl
  | _ => simp [wfL2] at h

/-- C8 counterexample: in the map `{"A": [[[null,null]]]}` the
source-node branch is an array, not a mapping; the claim says such a
branch contributes 0, but `typeof` admits arrays and the code counts its
two innermost edges. -/
theorem claim_C8_cex :
    countConnections (some arrayBranchConnections) = 2
  ∧ connSpecSum arrayBranchConnections = 0 := ⟨rfl, rfl⟩

/-- C8 (amended): on every well-formed connection map (a mapping of
mappings of arrays of edge arrays) the reported count is the sum of the
innermost edge-array lengths, and an absent map yields 0; primitive
branches at the mapping levels contribute 0, but an array at a mapping
level is enumerated positionally like an object rather than skipped. -/
theorem claim_C8 (c : Json) :
    (wellFormedConnB c = true → countConnections (some c) = connSpecSum c)
  ∧ countConnections none = 0 := by
  refine ⟨?_, rfl⟩
  intro h
  cases c with
  | obj kvs =>
    simp only [wellFormedConnB, List.all_eq_true] at h
    simp only [countConnections, connSpecSum, jsTruthy, if_true, objValues, List.map_map]
    congr 1
    exact List.map_congr_left (fun kv hkv => connL2_spec kv.2 (h kv hkv))
  | _ => simp [wellFormedConnB] at h

/-- C8 witness: a concrete well-formed map with three edges. -/
theorem claim_C8_witness :
    wellFormedConnB wfConnections = true
  ∧ countConnections (some wfConnections) = connSpecSum wfConnections :=
  ⟨rfl, (claim_C8 wfConnections).1 rfl⟩

/-! ## C9 -/

/-- When every node carries a string `type`, the sticky filter cannot
throw and agrees with the pure annotation filter. -/
theorem stickyFilter_ok :
    (l : List Json) → (∀ node ∈ l, ∃ s, getField node "type" = some (Json.str s)) →
    stickyFilter l = Except.ok (l.filter (fun n => !(isStickyNode n)))
  | [], _ => rfl
  | node :: rest, h => by
    obtain ⟨s, hs⟩ := h node (List.mem_cons_self node rest)
    have hrest := stickyFilter_ok rest (fun n hn => h n (List.mem_cons_of_mem node hn))
    cases node with
    | obj kvs =>
      simp only [getField] at hs
      simp only [stickyFilter, getField, hs, hrest, Except.map, List.filter_cons,
        isStickyNode, jsIncludes]
      by_cases hstick : strIncludes s "stickyNote" = true <;> simp [hstick]
    | _ => simp [getField] at hs

/-- C9 counterexample: the engine on an id-less code node produces a
finding whose `nodeId` is absent.  That finding is associated with the
node, so the claimed count of finding-free non-annotation nodes is 0; the
code filters absent ids out of its set and reports the node as secure,
returning 1. -/
theorem claim_C9_cex :
    checkNodeSecurity idlessCodeNode = Except.ok [idlessCodeFinding]
  ∧ calculateSecureNodes idlessCodeDoc [idlessCodeFinding] = Except.ok 1
  ∧ secureNodesClaim idlessCodeDoc [idlessCodeFinding] = 0 := ⟨rfl, rfl, rfl⟩

/-- C9 (amended): for every document whose nodes all carry string types,
`calculateSecureNodes` returns the number of non-annotation nodes whose
`id` is not among the truthy `nodeId` values of the findings; findings
without a truthy `nodeId` associate with no node. -/
theorem claim_C9 (d : Json) (issues : List SecurityIssue) (l : List Json)
    (hn : getField d "nodes" = some (Json.arr l))
    (ht : ∀ node ∈ l, ∃ s, getField node "type" = some (Json.str s)) :
    calculateSecureNodes d issues = Except.ok (secureNodesAmended d issues) := by
  unfold calculateSecureNodes secureNodesAmended
  rw [hn]
  simp only [jsTruthy, Bool.not_true, if_false, stickyFilter_ok l ht, Except.map,
    List.filter_filter]
  rfl

/-- C9 witness: with one identified code node and its finding, the code
and the amended count agree (the node is flagged, so zero nodes are
secure). -/
theorem claim_C9_witness :
    calculateSecureNodes
        (Json.obj [("nodes", Json.arr [Json.obj [("id", Json.str "1"), ("type", Json.str "n8n-nodes-base.code")]])])
        [mkIssue .high "Code Execution Risk" msgCodeExec (some (Json.str "1")) (Json.str "1")]
      = Except.ok (secureNodesAmended
        (Json.obj [("nodes", Json.arr [Json.obj [("id", Json.str "1"), ("type", Json.str "n8n-nodes-base.code")]])])
        [mkIssue .high "Code Execution Risk" msgCodeExec (some (Json.str "1")) (Json.str "1")]) :=
  claim_C9 _ _ [Json.obj [("id", Json.str "1"), ("type", Json.str "n8n-nodes-base.code")]] rfl
    (by
      intro node hnode
      rw [List.mem_singleton] at hnode
      exact ⟨"n8n-nodes-base.code", by subst hnode; rfl⟩)

/-! ## C10 -/

/-- A string containing "stickyNote" is nonempty, hence truthy. -/
theorem sticky_truthy {s : String} (h : strIncludes s "stickyNote" = true) :
    (s != "") = true := by
  rcases eq_or_ne s "" with rfl | hne
  · exact absurd h (by decide)
  · simpa using hne

/-- C10: a sticky-note node (string type containing "stickyNote") is
still structurally validated — placed alone in an otherwise healthy
workflow, its missing `id` yields the index-referencing error and its
missing `typeVersion` the warning, both in the returned report — while
the rule engine emits no finding for it and it is excluded from the node
count. -/
theorem claim_C10 (node : Json) (s : String)
    (hty : getField node "type" = some (Json.str s))
    (hsticky : strIncludes s "stickyNote" = true)
    (hid : truthyOpt (getField node "id") = false)
    (hname : truthyOpt (getField node "name") = false)
    (htv : truthyOpt (getField node "typeVersion") = false) :
    validateN8nWorkflow (annotationDoc node) = Except.ok
      { isValid := false, isN8nWorkflow := true,
        errors := [errMissingId 0],
        warnings := [warnMissingTypeVersion "0"],
        info := [infoCounts 0 0],
        securityIssues := [],
        workflowInfo := some ⟨Json.str "W", 0, 0, none⟩ } := by
  cases node with
  | null => simp [getField] at hty
  | bool b => simp [getField] at hty
  | num n => simp [getField] at hty
  | str t => simp [getField] at hty
  | arr l => simp [getField] at hty
  | obj kvs =>
    have hsec : checkNodeSecurity (Json.obj kvs) = Except.ok [] := by
      unfold checkNodeSecurity
      simp only [hty, hsticky, if_true]
    have hdisp : displayName (Json.obj kvs) 0 = "0" := by
      unfold displayName
      rw [jsOrVal_falsy _ hname, jsOrVal_falsy _ hid]
      rfl
    have herr : nodeStructErrors (Json.obj kvs) 0 = [errMissingId 0] := by
      unfold nodeStructErrors
      rw [hid, hty]
      simp [truthyOpt, jsTruthy, sticky_truthy hsticky]
    have hwarn : nodeStructWarnings (Json.obj kvs) 0 = [warnMissingTypeVersion "0"] := by
      unfold nodeStructWarnings
      rw [htv, hdisp]
      rfl
    have hloop : nodesLoop [Json.obj kvs] 0 =
        Except.ok ([errMissingId 0], [warnMissingTypeVersion "0"], []) := by
      unfold nodesLoop
      simp only [hsec, nodesLoop, herr, hwarn]
      rfl
    have hfilter : stickyFilter [Json.obj kvs] = Except.ok [] := by
      unfold stickyFilter
      simp only [hty, hsticky, stickyFilter, Except.map, if_true]
    unfold validateN8nWorkflow
    rw [show isN8nWorkflowB (annotationDoc (Json.obj kvs)) = true from rfl]
    rw [show getField (annotationDoc (Json.obj kvs)) "nodes"
        = some (Json.arr [Json.obj kvs]) from rfl]
    simp only [Bool.not_true, Bool.false_eq_true, if_false, hloop, hfilter]
    rfl

/-- C10 witness: a bare `n8n-nodes-base.stickyNote` node in the
single-node workflow. -/
theorem claim_C10_witness :
    validateN8nWorkflow (annotationDoc bareStickyNode) = Except.ok
      { isValid := false, isN8nWorkflow := true,
        errors := [errMissingId 0],
        warnings := [warnMissingTypeVersion "0"],
        info := [infoCounts 0 0],
        securityIssues := [],
        workflowInfo := some ⟨Json.str "W", 0, 0, none⟩ } :=
  claim_C10 bareStickyNode "n8n-nodes-base.stickyNote" rfl rfl rfl rfl rfl

end N8n
